import Mathlib

/-!
Verification of the gas-burner design pipeline (combustion stoichiometry,
burner sizing, chamber sizing, radiative heat transfer, piping pressure
losses) against its natural-language specification.  Python floating-point
arithmetic is embedded shallowly into the real numbers; exceptions become
an explicit error sum type (Except); the process-wide fuel-data file
becomes an explicit FuelCatalog value passed into every function.
-/

noncomputable section

open scoped Classical

/-! ## Fuel catalog (data/fuels.json, passed to every component) -/

/-- Per-fuel physical properties, mirroring fuels[id].properties of the
fuel data file. -/
structure FuelProperties where
  lower_heating_value_mass : ℝ
  air_fuel_ratio_mass : ℝ
  molecular_weight : ℝ
  density : ℝ

/-- Shared physical constants of the fuel data file. -/
structure PhysConstants where
  universal_gas_constant : ℝ
  standard_pressure : ℝ
  standard_temperature : ℝ
  stefan_boltzmann_constant : ℝ
  air_molecular_weight : ℝ

/-- The loaded fuel-data table: a keyed lookup of fuel properties plus the
shared constants block. -/
structure FuelCatalog where
  fuels : String → Option FuelProperties
  constants : PhysConstants

/-- Fuel-type key used throughout the source. -/
def strNaturalGas : String := "natural_gas"

/-- Fuel-type key used throughout the source. -/
def strMethane : String := "methane"

/-- Fuel-type key used throughout the source. -/
def strPropane : String := "propane"

/-! ## CombustionCalculator (src/combustion.py) -/

/-- Results record of CombustionCalculator.calculate_combustion_products. -/
structure CombustionResults where
  fuel_flow_rate : ℝ
  air_flow_rate : ℝ
  flue_gas_flow_rate : ℝ
  adiabatic_flame_temperature : ℝ
  heat_release_rate : ℝ
  excess_air_ratio : ℝ
  co2_volume_percent : ℝ
  o2_volume_percent : ℝ

/-- Error raised (ValueError) by the combustion calculator. -/
inductive CombustionError where
  | unsupportedFuel
  | invalidFlowRate
  | invalidExcessAir
deriving DecidableEq

/-- CombustionCalculator.calculate_stoichiometric_air: fuel flow times the
fuel's air-fuel mass ratio (the unknown-fuel check is handled by the
caller's lookup here). -/
def calculate_stoichiometric_air (props : FuelProperties) (fuel_flow_rate : ℝ) : ℝ :=
  fuel_flow_rate * props.air_fuel_ratio_mass

/-- CombustionCalculator._calculate_adiabatic_temperature: base flame
temperature of 2200 K (used for every fuel type), cooled by the excess-air
correction, shifted by the catalog's standard temperature. -/
def adiabatic_temperature (cat : FuelCatalog) (excess_air_ratio : ℝ) : ℝ :=
  2200 * (1.0 - (excess_air_ratio - 1.0) * 0.3) + cat.constants.standard_temperature

/-- CombustionCalculator._calculate_flue_gas_composition: CO2 and O2 volume
percentages from the per-fuel empirical dilution formulas. -/
def flue_gas_composition (fuel_type : String) (excess_air_ratio : ℝ) : ℝ × ℝ :=
  let co2_stoich : ℝ :=
    if fuel_type = strNaturalGas then 12.0
    else if fuel_type = strMethane then 12.0
    else if fuel_type = strPropane then 14.0
    else 12.0
  let co2_percent := co2_stoich / excess_air_ratio
  let excess_air_percent := (excess_air_ratio - 1.0) * 100
  let o2_percent := excess_air_percent * 0.21 / excess_air_ratio
  (co2_percent, o2_percent)

/-- CombustionCalculator.calculate_combustion_products: validates fuel type,
flow rate and excess-air ratio, then assembles the CombustionResults
record. -/
def calculate_combustion_products (cat : FuelCatalog) (fuel_type : String)
    (fuel_flow_rate : ℝ) (excess_air_ratio : ℝ) :
    Except CombustionError CombustionResults :=
  match cat.fuels fuel_type with
  | none => .error .unsupportedFuel
  | some props =>
    if fuel_flow_rate ≤ 0 then .error .invalidFlowRate
    else if excess_air_ratio < 1.0 then .error .invalidExcessAir
    else
      let stoichiometric_air := calculate_stoichiometric_air props fuel_flow_rate
      let actual_air_flow := stoichiometric_air * excess_air_ratio
      let flue_gas_flow := fuel_flow_rate + actual_air_flow
      let heat_release_rate := fuel_flow_rate * props.lower_heating_value_mass
      let adiabatic_temp := adiabatic_temperature cat excess_air_ratio
      let comp := flue_gas_composition fuel_type excess_air_ratio
      .ok
        { fuel_flow_rate := fuel_flow_rate
          air_flow_rate := actual_air_flow
          flue_gas_flow_rate := flue_gas_flow
          adiabatic_flame_temperature := adiabatic_temp
          heat_release_rate := heat_release_rate
          excess_air_ratio := excess_air_ratio
          co2_volume_percent := comp.1
          o2_volume_percent := comp.2 }

/-- Successful combustion runs produce exactly the record built from the
stoichiometric formulas (shared helper for the claim proofs). -/
theorem calculate_combustion_products_ok (cat : FuelCatalog) (fuel_type : String)
    (props : FuelProperties) (fuel_flow_rate excess_air_ratio : ℝ)
    (hfuel : cat.fuels fuel_type = some props)
    (hflow : 0 < fuel_flow_rate) (hexcess : 1.0 ≤ excess_air_ratio) :
    calculate_combustion_products cat fuel_type fuel_flow_rate excess_air_ratio =
      .ok
        { fuel_flow_rate := fuel_flow_rate
          air_flow_rate := fuel_flow_rate * props.air_fuel_ratio_mass * excess_air_ratio
          flue_gas_flow_rate :=
            fuel_flow_rate + fuel_flow_rate * props.air_fuel_ratio_mass * excess_air_ratio
          adiabatic_flame_temperature := adiabatic_temperature cat excess_air_ratio
          heat_release_rate := fuel_flow_rate * props.lower_heating_value_mass
          excess_air_ratio := excess_air_ratio
          co2_volume_percent := (flue_gas_composition fuel_type excess_air_ratio).1
          o2_volume_percent := (flue_gas_composition fuel_type excess_air_ratio).2 } := by
  unfold calculate_combustion_products calculate_stoichiometric_air
  rw [hfuel]
  simp only [if_neg (not_le.mpr hflow), if_neg (not_lt.mpr hexcess)]

/-- Sample catalog used only to instantiate witness theorems on concrete
inputs (the theorems themselves quantify over every catalog). -/
def testCatalog : FuelCatalog where
  fuels := fun s =>
    if s = strNaturalGas then
      some
        { lower_heating_value_mass := 5e7
          air_fuel_ratio_mass := 17.2
          molecular_weight := 16.0
          density := 0.7 }
    else none
  constants :=
    { universal_gas_constant := 8.314
      standard_pressure := 101325
      standard_temperature := 273.15
      stefan_boltzmann_constant := 5.67e-8
      air_molecular_weight := 28.96 }

/-- Properties record stored for natural gas in the sample catalog. -/
def testProps : FuelProperties :=
  { lower_heating_value_mass := 5e7
    air_fuel_ratio_mass := 17.2
    molecular_weight := 16.0
    density := 0.7 }

/-- The sample catalog resolves the natural-gas key. -/
theorem testCatalog_fuels_natural_gas :
    testCatalog.fuels strNaturalGas = some testProps := by
  simp [testCatalog, testProps]

/-- Claim C1: for every supported fuel type, fuel flow rate above zero and
excess-air ratio at least one, calculate_combustion_products returns a
CombustionResults whose flue-gas flow rate equals the fuel flow rate plus
the air flow rate exactly, the air flow rate being the fuel flow rate times
the air-fuel mass ratio times the excess-air ratio. -/
theorem combustion_flue_gas_balance (cat : FuelCatalog) (fuel_type : String)
    (props : FuelProperties) (fuel_flow_rate excess_air_ratio : ℝ)
    (hfuel : cat.fuels fuel_type = some props)
    (hflow : 0 < fuel_flow_rate) (hexcess : 1.0 ≤ excess_air_ratio) :
    ∃ r : CombustionResults,
      calculate_combustion_products cat fuel_type fuel_flow_rate excess_air_ratio =
        .ok r ∧
      r.flue_gas_flow_rate = r.fuel_flow_rate + r.air_flow_rate ∧
      r.air_flow_rate = fuel_flow_rate * props.air_fuel_ratio_mass * excess_air_ratio ∧
      r.fuel_flow_rate = fuel_flow_rate := by
  refine ⟨_, calculate_combustion_products_ok cat fuel_type props fuel_flow_rate
    excess_air_ratio hfuel hflow hexcess, ?_, rfl, rfl⟩
  simp

/-- Witness for claim C1 at a concrete call: natural gas, 0.01 kg/s fuel,
20 percent excess air. -/
theorem combustion_flue_gas_balance_witness :
    ∃ r : CombustionResults,
      calculate_combustion_products testCatalog strNaturalGas 0.01 1.2 = .ok r ∧
      r.flue_gas_flow_rate = r.fuel_flow_rate + r.air_flow_rate ∧
      r.air_flow_rate = 0.01 * testProps.air_fuel_ratio_mass * 1.2 ∧
      r.fuel_flow_rate = 0.01 :=
  combustion_flue_gas_balance testCatalog strNaturalGas testProps 0.01 1.2
    testCatalog_fuels_natural_gas (by norm_num) (by norm_num)

/-- Claim C7: for every supported fuel type and excess-air ratio at least
one, the adiabatic flame temperature returned by the combustion calculator
equals base temperature times (1 - (excessAirRatio - 1) * 0.3) plus the
catalog's standard temperature; the code uses the single base flame
temperature 2200 K for every fuel family. -/
theorem combustion_adiabatic_temperature_formula (cat : FuelCatalog)
    (fuel_type : String) (props : FuelProperties) (fuel_flow_rate excess_air_ratio : ℝ)
    (hfuel : cat.fuels fuel_type = some props)
    (hflow : 0 < fuel_flow_rate) (hexcess : 1.0 ≤ excess_air_ratio) :
    ∃ r : CombustionResults,
      calculate_combustion_products cat fuel_type fuel_flow_rate excess_air_ratio =
        .ok r ∧
      r.adiabatic_flame_temperature =
        2200 * (1.0 - (excess_air_ratio - 1.0) * 0.3) +
          cat.constants.standard_temperature := by
  refine ⟨_, calculate_combustion_products_ok cat fuel_type props fuel_flow_rate
    excess_air_ratio hfuel hflow hexcess, ?_⟩
  simp [adiabatic_temperature]

/-- Witness for claim C7 at a concrete call: natural gas, 0.01 kg/s fuel,
20 percent excess air against the sample catalog. -/
theorem combustion_adiabatic_temperature_formula_witness :
    ∃ r : CombustionResults,
      calculate_combustion_products testCatalog strNaturalGas 0.01 1.2 = .ok r ∧
      r.adiabatic_flame_temperature =
        2200 * (1.0 - (1.2 - 1.0) * 0.3) + testCatalog.constants.standard_temperature :=
  combustion_adiabatic_temperature_formula testCatalog strNaturalGas testProps 0.01 1.2
    testCatalog_fuels_natural_gas (by norm_num) (by norm_num)

/-! ## BurnerDesigner (src/burner_design.py) -/

/-- Results record of BurnerDesigner.design_burner. -/
structure BurnerDesignResults where
  burner_diameter : ℝ
  burner_area : ℝ
  gas_velocity : ℝ
  burner_pressure_drop : ℝ
  required_supply_pressure : ℝ
  heat_release_density : ℝ
  burner_length : ℝ
  flame_length : ℝ

/-- Error raised (ValueError) by the burner designer. -/
inductive BurnerError where
  | invalidPower
  | invalidPressure
  | unknownFuel
  | combustionFailed (e : CombustionError)
  | insufficientSupplyPressure
  | excessiveHeatDensity
deriving DecidableEq

/-- BurnerDesigner._calculate_gas_density: ideal gas law, molecular weight
converted from g/mol to kg/mol. -/
def calculate_gas_density (cat : FuelCatalog) (props : FuelProperties)
    (pressure temperature : ℝ) : ℝ :=
  pressure * (props.molecular_weight / 1000) /
    (cat.constants.universal_gas_constant * temperature)

/-- BurnerDesigner._calculate_optimal_velocity: per-fuel base velocity
scaled by a capped power factor, clamped to the [5, 100] m/s limits. -/
def calculate_optimal_velocity (fuel_type : String) (power : ℝ) : ℝ :=
  let base_velocity : ℝ :=
    if fuel_type = strNaturalGas ∨ fuel_type = strMethane then 20.0
    else if fuel_type = strPropane then 15.0
    else 20.0
  let power_factor := min 2.0 (Real.rpow (power / 100000) 0.3)
  let optimal_velocity := base_velocity * power_factor
  max 5.0 (min 100.0 optimal_velocity)

/-- Velocity-range clamp of design_burner (MIN_GAS_VELOCITY = 5,
MAX_GAS_VELOCITY = 100). -/
def clamp_gas_velocity (v : ℝ) : ℝ :=
  if v < 5.0 then 5.0 else if v > 100.0 then 100.0 else v

/-- BurnerDesigner._calculate_burner_pressure_drop: orifice law with the
fixed coefficient BURNER_PRESSURE_DROP_COEFF = 0.8. -/
def calculate_burner_pressure_drop (gas_density velocity : ℝ) : ℝ :=
  0.8 * gas_density * velocity ^ 2 / 2

/-- BurnerDesigner._calculate_flame_length: turbulent-jet correlation
clamped to between 5 and 50 burner diameters. -/
def calculate_flame_length (props : FuelProperties) (burner_diameter gas_velocity : ℝ)
    (fuel_type : String) : ℝ :=
  let reynolds := props.density * gas_velocity * burner_diameter / 1.5e-5
  let c_constant : ℝ :=
    if fuel_type = strNaturalGas ∨ fuel_type = strMethane then 0.2 else 0.25
  let flame_length := c_constant * Real.rpow reynolds 0.5 * burner_diameter
  max (burner_diameter * 5) (min (burner_diameter * 50) flame_length)

/-- Gas velocity actually used by design_burner: the caller-supplied target
velocity if given, else the optimal velocity, in either case run through
the range clamp. -/
def burner_velocity (fuel_type : String) (required_power : ℝ)
    (target_velocity : Option ℝ) : ℝ :=
  clamp_gas_velocity
    (match target_velocity with
     | none => calculate_optimal_velocity fuel_type required_power
     | some v => v)

/-- Required supply pressure computed by design_burner before the
insufficient-pressure check: burner pressure drop times the safety
factor (gas density taken at 20 C, the supply pressure). -/
def burner_required_supply (cat : FuelCatalog) (safety_factor : ℝ)
    (props : FuelProperties) (fuel_type : String)
    (required_power supply_pressure : ℝ) (target_velocity : Option ℝ) : ℝ :=
  let gas_density := calculate_gas_density cat props supply_pressure 293.15
  let v := burner_velocity fuel_type required_power target_velocity
  calculate_burner_pressure_drop gas_density v * safety_factor

/-- BurnerDesigner.design_burner: validates power and pressure, sizes the
burner from the volumetric flow and target velocity, rejects infeasible
supply pressure and heat release density, and assembles the results. -/
def design_burner (cat : FuelCatalog) (safety_factor : ℝ) (fuel_type : String)
    (required_power supply_pressure : ℝ) (target_velocity : Option ℝ)
    (excess_air_ratio : ℝ) : Except BurnerError BurnerDesignResults :=
  if required_power ≤ 0 then .error .invalidPower
  else if supply_pressure ≤ 0 then .error .invalidPressure
  else
    match cat.fuels fuel_type with
    | none => .error .unknownFuel
    | some props =>
      let fuel_flow_rate := required_power / props.lower_heating_value_mass
      match calculate_combustion_products cat fuel_type fuel_flow_rate excess_air_ratio with
      | .error e => .error (.combustionFailed e)
      | .ok _ =>
        let gas_density := calculate_gas_density cat props supply_pressure 293.15
        let v := burner_velocity fuel_type required_power target_velocity
        let volume_flow_rate := fuel_flow_rate / gas_density
        let burner_area := volume_flow_rate / v
        let burner_diameter := Real.sqrt (4 * burner_area / Real.pi)
        let burner_pressure_drop := calculate_burner_pressure_drop gas_density v
        let required_supply_pressure := burner_pressure_drop * safety_factor
        if required_supply_pressure > supply_pressure then
          .error .insufficientSupplyPressure
        else
          let heat_release_density := required_power / burner_area
          if heat_release_density > 5e6 then .error .excessiveHeatDensity
          else
            .ok
              { burner_diameter := burner_diameter
                burner_area := burner_area
                gas_velocity := v
                burner_pressure_drop := burner_pressure_drop
                required_supply_pressure := required_supply_pressure
                heat_release_density := heat_release_density
                burner_length := burner_diameter * 3.0
                flame_length := calculate_flame_length props burner_diameter v fuel_type }

/-- BurnerDesigner.validate_design, entry velocity_in_range. -/
def validate_velocity_in_range (r : BurnerDesignResults) : Prop :=
  5.0 ≤ r.gas_velocity ∧ r.gas_velocity ≤ 100.0

/-- BurnerDesigner.validate_design, entry heat_density_acceptable. -/
def validate_heat_density_acceptable (r : BurnerDesignResults) : Prop :=
  r.heat_release_density ≤ 5e6

/-- BurnerDesigner.validate_design, entry reasonable_dimensions. -/
def validate_reasonable_dimensions (r : BurnerDesignResults) : Prop :=
  (0.001 ≤ r.burner_diameter ∧ r.burner_diameter ≤ 1.0) ∧
    (0.01 ≤ r.burner_length ∧ r.burner_length ≤ 5.0)

/-- BurnerDesigner.validate_design, entry pressure_drop_reasonable. -/
def validate_pressure_drop_reasonable (r : BurnerDesignResults) : Prop :=
  r.burner_pressure_drop < r.required_supply_pressure * 0.8

/-- The clamped gas velocity is always at least the 5 m/s minimum. -/
theorem clamp_gas_velocity_ge_five (v : ℝ) : 5.0 ≤ clamp_gas_velocity v := by
  unfold clamp_gas_velocity
  split_ifs with h1 h2
  · norm_num
  · norm_num
  · exact not_lt.mp h1

/-- Anatomy of every successful design_burner run: the result record is
exactly the one assembled from the shared helper definitions, and both
feasibility checks passed (shared helper for the claim proofs). -/
theorem design_burner_ok_inversion (cat : FuelCatalog) (safety_factor : ℝ)
    (fuel_type : String) (required_power supply_pressure : ℝ)
    (target_velocity : Option ℝ) (excess_air_ratio : ℝ) (r : BurnerDesignResults)
    (h : design_burner cat safety_factor fuel_type required_power supply_pressure
        target_velocity excess_air_ratio = .ok r) :
    0 < required_power ∧ 0 < supply_pressure ∧
    ∃ props, cat.fuels fuel_type = some props ∧
      r.gas_velocity = burner_velocity fuel_type required_power target_velocity ∧
      r.burner_pressure_drop =
        calculate_burner_pressure_drop
          (calculate_gas_density cat props supply_pressure 293.15) r.gas_velocity ∧
      r.required_supply_pressure = r.burner_pressure_drop * safety_factor ∧
      r.required_supply_pressure ≤ supply_pressure := by
  unfold design_burner at h
  split_ifs at h with hp hs
  obtain ⟨props, hprops⟩ : ∃ props, cat.fuels fuel_type = some props := by
    rcases hcase : cat.fuels fuel_type with _ | props
    · rw [hcase] at h; exact absurd h (by simp)
    · exact ⟨props, rfl⟩
  rw [hprops] at h
  refine ⟨lt_of_not_le hp, lt_of_not_le hs, props, hprops, ?_⟩
  rcases hcomb : calculate_combustion_products cat fuel_type
      (required_power / props.lower_heating_value_mass) excess_air_ratio with e | cr
  · simp only [hcomb] at h
    exact absurd h (by simp)
  · simp only [hcomb] at h
    split_ifs at h with hreq hheat
    injection h with h
    subst h
    exact ⟨rfl, rfl, rfl, not_lt.mp hreq⟩

/-- Claim C4: every BurnerDesignResults returned by design_burner has
required_supply_pressure equal to burner_pressure_drop times the safety
factor and at most the caller-supplied supply pressure; and whenever the
computed required supply pressure exceeds the supply pressure (on inputs
passing the earlier validations), design_burner returns the
insufficient-supply-pressure error instead of a result. -/
theorem design_burner_supply_pressure_invariant (cat : FuelCatalog)
    (safety_factor : ℝ) (fuel_type : String) (props : FuelProperties)
    (required_power supply_pressure : ℝ) (target_velocity : Option ℝ)
    (excess_air_ratio : ℝ)
    (hfuel : cat.fuels fuel_type = some props)
    (hpow : 0 < required_power) (hsup : 0 < supply_pressure)
    (hlhv : 0 < props.lower_heating_value_mass) (hexcess : 1.0 ≤ excess_air_ratio) :
    (∀ r : BurnerDesignResults,
      design_burner cat safety_factor fuel_type required_power supply_pressure
          target_velocity excess_air_ratio = .ok r →
        r.required_supply_pressure = r.burner_pressure_drop * safety_factor ∧
        r.required_supply_pressure ≤ supply_pressure) ∧
    (burner_required_supply cat safety_factor props fuel_type required_power
        supply_pressure target_velocity > supply_pressure →
      design_burner cat safety_factor fuel_type required_power supply_pressure
          target_velocity excess_air_ratio = .error .insufficientSupplyPressure) := by
  constructor
  · intro r h
    obtain ⟨-, -, props2, -, -, -, hfr, hle⟩ :=
      design_burner_ok_inversion cat safety_factor fuel_type required_power
        supply_pressure target_velocity excess_air_ratio r h
    exact ⟨hfr, hle⟩
  · intro hgt
    simp only [burner_required_supply] at hgt
    unfold design_burner
    rw [if_neg (not_le.mpr hpow), if_neg (not_le.mpr hsup), hfuel]
    simp only [calculate_combustion_products_ok cat fuel_type props _ excess_air_ratio hfuel
      (div_pos hpow hlhv) hexcess]
    rw [if_pos hgt]

/-- Second sample catalog, chosen so that witness arithmetic is simple
(unit gas constant, 1 kg/mol molecular weight). -/
def testCatalogB : FuelCatalog where
  fuels := fun s =>
    if s = strNaturalGas then
      some
        { lower_heating_value_mass := 1
          air_fuel_ratio_mass := 0
          molecular_weight := 1000
          density := 1 }
    else none
  constants :=
    { universal_gas_constant := 1
      standard_pressure := 1
      standard_temperature := 0
      stefan_boltzmann_constant := 1
      air_molecular_weight := 1000 }

/-- Properties record stored for natural gas in the second sample catalog. -/
def testPropsB : FuelProperties :=
  { lower_heating_value_mass := 1
    air_fuel_ratio_mass := 0
    molecular_weight := 1000
    density := 1 }

/-- The second sample catalog resolves the natural-gas key. -/
theorem testCatalogB_fuels_natural_gas :
    testCatalogB.fuels strNaturalGas = some testPropsB := by
  simp [testCatalogB, testPropsB]

/-- Witness for claim C4: concrete catalog and inputs where the computed
required supply pressure (about 16.4 Pa) exceeds the 1 Pa supply, so the
call must fail with the insufficient-supply-pressure error. -/
theorem design_burner_supply_pressure_invariant_witness :
    (∀ r : BurnerDesignResults,
      design_burner testCatalogB 1.2 strNaturalGas 1 1 (some 100) 1.2 = .ok r →
        r.required_supply_pressure = r.burner_pressure_drop * 1.2 ∧
        r.required_supply_pressure ≤ 1) ∧
    (burner_required_supply testCatalogB 1.2 testPropsB strNaturalGas 1 1
        (some 100) > 1 →
      design_burner testCatalogB 1.2 strNaturalGas 1 1 (some 100) 1.2 =
        .error .insufficientSupplyPressure) :=
  design_burner_supply_pressure_invariant testCatalogB 1.2 strNaturalGas testPropsB
    1 1 (some 100) 1.2 testCatalogB_fuels_natural_gas (by norm_num) (by norm_num)
    (by norm_num [testPropsB]) (by norm_num)

/-- Claim C9: with the default safety factor 1.2, every result produced by
design_burner fails the pressure_drop_reasonable validation predicate: it
would require burner_pressure_drop below 0.96 times itself, impossible for
the always-positive pressure drop (gas constant and molecular weight of
the looked-up fuel taken positive, as in the shipped fuel data). -/
theorem validate_design_pressure_drop_always_false (cat : FuelCatalog)
    (fuel_type : String) (props : FuelProperties)
    (required_power supply_pressure : ℝ) (target_velocity : Option ℝ)
    (excess_air_ratio : ℝ)
    (hfuel : cat.fuels fuel_type = some props)
    (hmw : 0 < props.molecular_weight)
    (hR : 0 < cat.constants.universal_gas_constant) :
    ∀ r : BurnerDesignResults,
      design_burner cat 1.2 fuel_type required_power supply_pressure
          target_velocity excess_air_ratio = .ok r →
        ¬ validate_pressure_drop_reasonable r := by
  intro r h
  obtain ⟨hpow, hsup, props2, hprops2, hvel, hdrop, hreq, hle⟩ :=
    design_burner_ok_inversion cat 1.2 fuel_type required_power supply_pressure
      target_velocity excess_air_ratio r h
  rw [hfuel] at hprops2
  injection hprops2 with hprops2
  subst hprops2
  have hv5 : 5.0 ≤ r.gas_velocity := by
    rw [hvel]; exact clamp_gas_velocity_ge_five _
  have hdens : 0 < calculate_gas_density cat props supply_pressure 293.15 := by
    unfold calculate_gas_density
    positivity
  have hv0 : 0 < r.gas_velocity := by linarith
  have hdpos : 0 < r.burner_pressure_drop := by
    rw [hdrop]
    unfold calculate_burner_pressure_drop
    nlinarith [mul_pos hdens (pow_pos hv0 2)]
  unfold validate_pressure_drop_reasonable
  rw [hreq]
  nlinarith

/-- Witness for claim C9 on a concrete design configuration: natural gas,
100 kW, 3000 Pa supply, 5 m/s target velocity - no result of that call can
pass the pressure_drop_reasonable predicate. -/
theorem validate_design_pressure_drop_always_false_witness :
    ¬ ∃ r : BurnerDesignResults,
      design_burner testCatalog 1.2 strNaturalGas 100000 3000 (some 5) 1.2 = .ok r ∧
        validate_pressure_drop_reasonable r := fun ⟨r, hok, hbad⟩ =>
  validate_design_pressure_drop_always_false testCatalog strNaturalGas testProps
    100000 3000 (some 5) 1.2 testCatalog_fuels_natural_gas
    (by norm_num [testProps]) (by norm_num [testCatalog]) r hok hbad

/-! ## ChamberDesigner (src/chamber_design.py) -/

/-- Results record of ChamberDesigner.design_chamber. -/
structure ChamberDesignResults where
  chamber_volume : ℝ
  chamber_diameter : ℝ
  chamber_length : ℝ
  chamber_area : ℝ
  residence_time : ℝ
  heat_transfer_coefficient : ℝ
  wall_temperature : ℝ
  heat_loss_rate : ℝ
  thermal_efficiency : ℝ
  volume_heat_release_rate : ℝ

/-- Error raised (ValueError) by the chamber designer. -/
inductive ChamberError where
  | invalidPower
  | residenceTimeTooShort
  | residenceTimeTooLong
  | unknownFuel
  | combustionFailed (e : CombustionError)
deriving DecidableEq

/-- ChamberDesigner._calculate_flue_gas_volume_flow: ideal-gas conversion of
the flue-gas mass flow to a volumetric flow at the gas temperature, using
the catalog standard pressure and the air molecular weight in kg/mol. -/
def flue_gas_volume_flow (cat : FuelCatalog) (flue_gas_flow_rate gas_temperature : ℝ) : ℝ :=
  flue_gas_flow_rate * cat.constants.universal_gas_constant * gas_temperature /
    (cat.constants.standard_pressure * (cat.constants.air_molecular_weight / 1000))

/-- ChamberDesigner._calculate_chamber_dimensions: cylindrical chamber with
the fixed L/D ratio 3, diameter from the cube root of the volume clamped to
the [0.1, 3.0] m practical limits; returns (diameter, length, area). -/
def chamber_dimensions (volume : ℝ) : ℝ × ℝ × ℝ :=
  let diameter0 := Real.rpow (4 * volume / (Real.pi * 3.0)) (1 / 3 : ℝ)
  let diameter := max 0.1 (min 3.0 diameter0)
  (diameter, 3.0 * diameter, Real.pi * diameter ^ 2 / 4)

/-- ChamberDesigner._calculate_heat_transfer_coefficient: turbulent Nusselt
correlation (laminar constant below Re 2300) with an empirical gas thermal
conductivity. -/
def heat_transfer_coefficient (gas_temperature chamber_diameter mass_flow_rate : ℝ) : ℝ :=
  let gas_velocity := mass_flow_rate / (1.0 * Real.pi * chamber_diameter ^ 2 / 4)
  let reynolds := 1.0 * gas_velocity * chamber_diameter / 2e-5
  let nusselt :=
    if reynolds > 2300 then 0.023 * Real.rpow reynolds 0.8 * Real.rpow 0.7 0.4
    else 3.66
  let thermal_conductivity := 0.05 + (gas_temperature - 273.15) * 5e-5
  nusselt * thermal_conductivity / chamber_diameter

/-- ChamberDesigner._calculate_wall_temperature: three-resistance series
network (gas film, insulation conduction, external film). -/
def wall_temperature (gas_temperature htc insulation_thickness ambient_temperature : ℝ) : ℝ :=
  let r_convection := 1 / htc
  let r_conduction := insulation_thickness / 0.2
  let r_external := 1 / 10.0
  let total_resistance := r_convection + r_conduction + r_external
  let heat_flux := (gas_temperature - ambient_temperature) / total_resistance
  gas_temperature - heat_flux * r_convection

/-- ChamberDesigner._calculate_chamber_surface_area: cylinder shell plus
both end caps. -/
def chamber_surface_area (diameter length : ℝ) : ℝ :=
  Real.pi * diameter * length + 2 * Real.pi * diameter ^ 2 / 4

/-- ChamberDesigner._calculate_heat_loss: overall U through insulation and
external film times surface area times the wall-ambient difference. -/
def chamber_heat_loss (surface_area wall_temp ambient_temperature insulation_thickness : ℝ) : ℝ :=
  let u_overall := 1 / (insulation_thickness / 0.2 + 1 / 10.0)
  u_overall * surface_area * (wall_temp - ambient_temperature)

/-- Flue-gas volumetric flow computed inside design_chamber for a given
power: the combustion run at the fixed 20 percent excess air, converted at
the adiabatic flame temperature (composition of the source formulas). -/
def chamber_flue_volume_flow (cat : FuelCatalog) (props : FuelProperties) (power : ℝ) : ℝ :=
  flue_gas_volume_flow cat
    (power / props.lower_heating_value_mass +
      power / props.lower_heating_value_mass * props.air_fuel_ratio_mass * 1.2)
    (adiabatic_temperature cat 1.2)

/-- ChamberDesigner.design_chamber: validates power and the target
residence time, sizes the chamber from the flue-gas volumetric flow, and
performs the one-shot corrective resize when the volumetric heat release
cap MAX_VOLUME_HEAT_RATE = 3e6 is exceeded (the source recomputes
dimensions and the heat-release rate inside the if; here the final volume
is selected first and dimensions/rate are computed once from it, which is
the same value).  The returned residence time is recomputed from the final
volume; its [0.1, 10] bounds are not re-checked after the resize. -/
def design_chamber (cat : FuelCatalog) (safety_factor : ℝ) (fuel_type : String)
    (required_power target_residence_time wall_insulation_thickness
      ambient_temperature target_efficiency : ℝ) :
    Except ChamberError ChamberDesignResults :=
  if required_power ≤ 0 then .error .invalidPower
  else if target_residence_time < 0.1 then .error .residenceTimeTooShort
  else if target_residence_time > 10.0 then .error .residenceTimeTooLong
  else
    match cat.fuels fuel_type with
    | none => .error .unknownFuel
    | some props =>
      let fuel_flow_rate := required_power / props.lower_heating_value_mass
      match calculate_combustion_products cat fuel_type fuel_flow_rate 1.2 with
      | .error e => .error (.combustionFailed e)
      | .ok comb =>
        let volume_flow :=
          flue_gas_volume_flow cat comb.flue_gas_flow_rate comb.adiabatic_flame_temperature
        let volume_first := volume_flow * target_residence_time * safety_factor
        let chamber_volume :=
          if required_power / volume_first > 3e6 then required_power / 3e6
          else volume_first
        let dims := chamber_dimensions chamber_volume
        let volume_heat_release_rate := required_power / chamber_volume
        let actual_residence_time := chamber_volume / volume_flow
        let htc :=
          heat_transfer_coefficient comb.adiabatic_flame_temperature dims.1
            comb.flue_gas_flow_rate
        let wall_temp :=
          wall_temperature comb.adiabatic_flame_temperature htc
            wall_insulation_thickness ambient_temperature
        let heat_loss_rate :=
          chamber_heat_loss (chamber_surface_area dims.1 dims.2.1) wall_temp
            ambient_temperature wall_insulation_thickness
        .ok
          { chamber_volume := chamber_volume
            chamber_diameter := dims.1
            chamber_length := dims.2.1
            chamber_area := dims.2.2
            residence_time := actual_residence_time
            heat_transfer_coefficient := htc
            wall_temperature := wall_temp
            heat_loss_rate := heat_loss_rate
            thermal_efficiency := (1 - heat_loss_rate / required_power) * 100
            volume_heat_release_rate := volume_heat_release_rate }

/-- Claim C3: whenever the first-pass volumetric heat release rate exceeds
MAX_VOLUME_HEAT_RATE = 3e6 W/m3, design_chamber performs exactly one
corrective resize (volume becomes requiredPower / 3e6; diameter, length,
area and residence time are re-derived from this new volume) and then
returns successfully; the re-derived residence time is never re-checked
against the [0.1, 10] s bounds, so no residence-time error is raised even
when it lies outside them. -/
theorem design_chamber_corrective_resize (cat : FuelCatalog) (safety_factor : ℝ)
    (fuel_type : String) (props : FuelProperties)
    (required_power target_residence_time wall_insulation_thickness
      ambient_temperature target_efficiency : ℝ)
    (hfuel : cat.fuels fuel_type = some props)
    (hpow : 0 < required_power)
    (hlhv : 0 < props.lower_heating_value_mass)
    (htrt1 : 0.1 ≤ target_residence_time) (htrt2 : target_residence_time ≤ 10.0)
    (hcap : 3e6 < required_power /
      (chamber_flue_volume_flow cat props required_power *
        target_residence_time * safety_factor)) :
    ∃ r : ChamberDesignResults,
      design_chamber cat safety_factor fuel_type required_power target_residence_time
          wall_insulation_thickness ambient_temperature target_efficiency = .ok r ∧
      r.chamber_volume = required_power / 3e6 ∧
      r.chamber_diameter = (chamber_dimensions (required_power / 3e6)).1 ∧
      r.chamber_length = (chamber_dimensions (required_power / 3e6)).2.1 ∧
      r.chamber_area = (chamber_dimensions (required_power / 3e6)).2.2 ∧
      r.residence_time =
        (required_power / 3e6) / chamber_flue_volume_flow cat props required_power ∧
      r.volume_heat_release_rate = required_power / (required_power / 3e6) := by
  simp only [chamber_flue_volume_flow] at hcap
  unfold design_chamber
  rw [if_neg (not_le.mpr hpow), if_neg (not_lt.mpr htrt1), if_neg (not_lt.mpr htrt2), hfuel]
  simp only [calculate_combustion_products_ok cat fuel_type props _ 1.2 hfuel
    (div_pos hpow hlhv) (by norm_num)]
  rw [if_pos hcap]
  exact ⟨_, rfl, rfl, rfl, rfl, rfl, rfl, rfl⟩

/-- Third sample catalog, scaled so that the corrective-resize branch of
the chamber designer fires and yields a corrected residence time far above
the 10 s upper bound. -/
def testCatalogC : FuelCatalog where
  fuels := fun s =>
    if s = strNaturalGas then
      some
        { lower_heating_value_mass := 1e12
          air_fuel_ratio_mass := 0
          molecular_weight := 16
          density := 0.7 }
    else none
  constants :=
    { universal_gas_constant := 1
      standard_pressure := 1
      standard_temperature := 0
      stefan_boltzmann_constant := 1
      air_molecular_weight := 1000 }

/-- Properties record stored for natural gas in the third sample catalog. -/
def testPropsC : FuelProperties :=
  { lower_heating_value_mass := 1e12
    air_fuel_ratio_mass := 0
    molecular_weight := 16
    density := 0.7 }

/-- The third sample catalog resolves the natural-gas key. -/
theorem testCatalogC_fuels_natural_gas :
    testCatalogC.fuels strNaturalGas = some testPropsC := by
  simp [testCatalogC, testPropsC]

/-- Witness for claim C3 at a concrete call whose first-pass volumetric
heat rate (about 3.2e9 W/m3) exceeds the cap; the corrected residence time
is about 161 s, far above the 10 s bound, yet the call succeeds. -/
theorem design_chamber_corrective_resize_witness :
    ∃ r : ChamberDesignResults,
      design_chamber testCatalogC 1.5 strNaturalGas 1e12 0.1 0.1 293.15 0.85 = .ok r ∧
      r.chamber_volume = 1e12 / 3e6 ∧
      r.chamber_diameter = (chamber_dimensions (1e12 / 3e6)).1 ∧
      r.chamber_length = (chamber_dimensions (1e12 / 3e6)).2.1 ∧
      r.chamber_area = (chamber_dimensions (1e12 / 3e6)).2.2 ∧
      r.residence_time = (1e12 / 3e6) / chamber_flue_volume_flow testCatalogC testPropsC 1e12 ∧
      r.volume_heat_release_rate = 1e12 / (1e12 / 3e6) :=
  design_chamber_corrective_resize testCatalogC 1.5 strNaturalGas testPropsC
    1e12 0.1 0.1 293.15 0.85 testCatalogC_fuels_natural_gas (by norm_num)
    (by norm_num [testPropsC]) (by norm_num) (by norm_num)
    (by norm_num [chamber_flue_volume_flow, flue_gas_volume_flow,
      adiabatic_temperature, testCatalogC, testPropsC])

/-- Claim C10: when the first-pass volumetric heat release rate stays
within the cap (no corrective resize), the residence time returned by
design_chamber equals target_residence_time times the safety factor
exactly, because the chamber volume already includes the safety factor and
the returned residence time is the volume divided by the flue-gas
volumetric flow. -/
theorem design_chamber_residence_time_scaled (cat : FuelCatalog) (safety_factor : ℝ)
    (fuel_type : String) (props : FuelProperties)
    (required_power target_residence_time wall_insulation_thickness
      ambient_temperature target_efficiency : ℝ)
    (hfuel : cat.fuels fuel_type = some props)
    (hpow : 0 < required_power)
    (hlhv : 0 < props.lower_heating_value_mass)
    (htrt1 : 0.1 ≤ target_residence_time) (htrt2 : target_residence_time ≤ 10.0)
    (hvf : 0 < chamber_flue_volume_flow cat props required_power)
    (hcap : ¬ (3e6 < required_power /
      (chamber_flue_volume_flow cat props required_power *
        target_residence_time * safety_factor))) :
    ∃ r : ChamberDesignResults,
      design_chamber cat safety_factor fuel_type required_power target_residence_time
          wall_insulation_thickness ambient_temperature target_efficiency = .ok r ∧
      r.residence_time = target_residence_time * safety_factor := by
  simp only [chamber_flue_volume_flow] at hcap hvf
  unfold design_chamber
  rw [if_neg (not_le.mpr hpow), if_neg (not_lt.mpr htrt1), if_neg (not_lt.mpr htrt2), hfuel]
  simp only [calculate_combustion_products_ok cat fuel_type props _ 1.2 hfuel
    (div_pos hpow hlhv) (by norm_num)]
  rw [if_neg hcap]
  refine ⟨_, rfl, ?_⟩
  show _ * target_residence_time * safety_factor / _ = target_residence_time * safety_factor
  rw [mul_assoc, mul_comm, mul_div_assoc, div_self (ne_of_gt hvf), mul_one]

/-- Witness for claim C10 at a concrete call: natural gas, 100 kW, 0.5 s
target residence, default safety factor 1.5, returning exactly 0.75 s. -/
theorem design_chamber_residence_time_scaled_witness :
    ∃ r : ChamberDesignResults,
      design_chamber testCatalog 1.5 strNaturalGas 100000 0.5 0.1 293.15 0.85 = .ok r ∧
      r.residence_time = 0.5 * 1.5 :=
  design_chamber_residence_time_scaled testCatalog 1.5 strNaturalGas testProps
    100000 0.5 0.1 293.15 0.85 testCatalog_fuels_natural_gas (by norm_num)
    (by norm_num [testProps]) (by norm_num) (by norm_num)
    (by norm_num [chamber_flue_volume_flow, flue_gas_volume_flow,
      adiabatic_temperature, testCatalog, testProps])
    (by norm_num [chamber_flue_volume_flow, flue_gas_volume_flow,
      adiabatic_temperature, testCatalog, testProps])

/-! ## RadiationCalculator (src/radiation.py) -/

/-- Results record of RadiationCalculator.calculate_flame_radiation. -/
structure RadiationResults where
  total_radiation_heat_transfer : ℝ
  flame_to_wall_heat_transfer : ℝ
  wall_to_ambient_heat_transfer : ℝ
  flame_emissivity : ℝ
  wall_emissivity : ℝ
  flame_absorptivity : ℝ
  view_factor_flame_wall : ℝ
  radiation_efficiency : ℝ
  mean_beam_length : ℝ

/-- Error raised (ValueError) by the radiation calculator. -/
inductive RadiationError where
  | temperatureOrdering
  | invalidGeometry
deriving DecidableEq

/-- RadiationCalculator._calculate_mean_beam_length: 3.6 V / A for the
cylindrical enclosure including both end caps. -/
def mean_beam_length (diameter length : ℝ) : ℝ :=
  let volume := Real.pi * (diameter / 2) ^ 2 * length
  let surface_area := Real.pi * diameter * length + 2 * Real.pi * (diameter / 2) ^ 2
  3.6 * volume / surface_area

/-- CO2 and H2O volume fractions used by _calculate_flame_emissivity
(per-fuel stoichiometric values diluted by the excess-air ratio). -/
def flame_gas_fractions (fuel_type : String) (excess_air_ratio : ℝ) : ℝ × ℝ :=
  if fuel_type = strNaturalGas then (0.12 / excess_air_ratio, 0.18 / excess_air_ratio)
  else if fuel_type = strPropane then (0.14 / excess_air_ratio, 0.16 / excess_air_ratio)
  else (0.12 / excess_air_ratio, 0.18 / excess_air_ratio)

/-- RadiationCalculator._calculate_flame_emissivity: weighted gray-gas
exponential absorption over CO2/H2O partial pressures, optional soot term,
temperature correction (T/1000)^0.2, capped at 0.95. -/
def flame_emissivity (temperature beam_length : ℝ) (fuel_type : String)
    (excess_air_ratio soot_concentration : ℝ) : ℝ :=
  let fractions := flame_gas_fractions fuel_type excess_air_ratio
  let p_co2 := fractions.1 * 101325 / 101325
  let p_h2o := fractions.2 * 101325 / 101325
  let emissivity_co2 := 1 - Real.exp (-(0.2 * p_co2 * beam_length))
  let emissivity_h2o := 1 - Real.exp (-(0.1 * p_h2o * beam_length))
  let gas_emissivity :=
    emissivity_co2 + emissivity_h2o - 0.15 * emissivity_co2 * emissivity_h2o
  let total_emissivity :=
    if soot_concentration > 0 then
      1 - (1 - gas_emissivity) *
        (1 - (1 - Real.exp (-(1200 * soot_concentration * beam_length))))
    else gas_emissivity
  let temp_correction := Real.rpow (temperature / 1000) 0.2
  min 0.95 (total_emissivity * temp_correction)

/-- RadiationCalculator._calculate_view_factor_cylinder: 3-segment
piecewise function of the aspect ratio. -/
def view_factor_cylinder (diameter length : ℝ) : ℝ :=
  let aspect := length / diameter
  if aspect < 0.5 then 0.7
  else if aspect > 5.0 then 0.9
  else 0.7 + 0.2 * (aspect - 0.5) / 4.5

/-- RadiationCalculator._calculate_flame_to_wall_radiation: two-surface
network with the flame volume as an equivalent-area gray emitter. -/
def flame_to_wall_radiation (sigma flame_volume wall_area flame_temp wall_temp
    flame_e wall_e view_factor : ℝ) : ℝ :=
  let effective_flame_area := Real.rpow flame_volume (2 / 3 : ℝ)
  let emissivity_effective :=
    1 / (1 / flame_e + wall_area / (effective_flame_area * wall_e) - 1)
  max 0 (sigma * effective_flame_area * view_factor * emissivity_effective *
    (flame_temp ^ 4 - wall_temp ^ 4))

/-- RadiationCalculator._calculate_surface_radiation: plain surface
Stefan-Boltzmann exchange, floored at zero (the ambient absorptivity
argument of the source is unused by its formula). -/
def surface_radiation (sigma area surface_temp ambient_temp emissivity : ℝ) : ℝ :=
  max 0 (sigma * area * emissivity * (surface_temp ^ 4 - ambient_temp ^ 4))

/-- RadiationCalculator._calculate_outer_surface_area. -/
def outer_surface_area (inner_diameter length wall_thickness : ℝ) : ℝ :=
  let outer_diameter := inner_diameter + 2 * wall_thickness
  Real.pi * outer_diameter * length + 2 * Real.pi * (outer_diameter / 2) ^ 2

/-- RadiationCalculator.calculate_flame_radiation: validates the
temperature ordering and geometry, then assembles the radiation results;
wall_e stands for the wall emissivity looked up for refractory brick from
the material data file. -/
def calculate_flame_radiation (cat : FuelCatalog) (wall_e : ℝ)
    (flame_temperature chamber_wall_temperature chamber_diameter chamber_length : ℝ)
    (fuel_type : String) (excess_air_ratio soot_concentration : ℝ) :
    Except RadiationError RadiationResults :=
  if flame_temperature ≤ chamber_wall_temperature then .error .temperatureOrdering
  else if chamber_diameter ≤ 0 ∨ chamber_length ≤ 0 then .error .invalidGeometry
  else
    let mbl := mean_beam_length chamber_diameter chamber_length
    let flame_e :=
      flame_emissivity flame_temperature mbl fuel_type excess_air_ratio soot_concentration
    let view_factor := view_factor_cylinder chamber_diameter chamber_length
    let flame_volume := Real.pi * (chamber_diameter / 2) ^ 2 * chamber_length
    let wall_area := Real.pi * chamber_diameter * chamber_length
    let flame_to_wall :=
      flame_to_wall_radiation cat.constants.stefan_boltzmann_constant flame_volume
        wall_area flame_temperature chamber_wall_temperature flame_e wall_e view_factor
    let wall_to_ambient :=
      surface_radiation cat.constants.stefan_boltzmann_constant
        (outer_surface_area chamber_diameter chamber_length 0.1)
        chamber_wall_temperature 293.15 wall_e
    let max_theoretical :=
      cat.constants.stefan_boltzmann_constant * wall_area *
        (flame_temperature ^ 4 - chamber_wall_temperature ^ 4)
    let radiation_efficiency :=
      if max_theoretical > 0 then flame_to_wall / max_theoretical * 100 else 0
    .ok
      { total_radiation_heat_transfer := flame_to_wall
        flame_to_wall_heat_transfer := flame_to_wall
        wall_to_ambient_heat_transfer := wall_to_ambient
        flame_emissivity := flame_e
        wall_emissivity := wall_e
        flame_absorptivity := flame_e
        view_factor_flame_wall := view_factor
        radiation_efficiency := radiation_efficiency
        mean_beam_length := mbl }

/-- Both flue-gas fractions are positive for a positive excess-air ratio. -/
theorem flame_gas_fractions_pos (fuel_type : String) (excess_air_ratio : ℝ)
    (h : 0 < excess_air_ratio) :
    0 < (flame_gas_fractions fuel_type excess_air_ratio).1 ∧
      0 < (flame_gas_fractions fuel_type excess_air_ratio).2 := by
  unfold flame_gas_fractions
  split_ifs <;> constructor <;> positivity

/-- The mean beam length is positive for positive chamber dimensions. -/
theorem mean_beam_length_pos (diameter length : ℝ)
    (hd : 0 < diameter) (hl : 0 < length) : 0 < mean_beam_length diameter length := by
  unfold mean_beam_length
  positivity

/-- The flame-emissivity core (the if-expression over the soot branch,
scaled by the temperature correction) is positive whenever the three
exponential attenuation factors are in range and the correction is
positive (shared helper for claim C8, stated over plain variables). -/
theorem flame_total_times_corr_pos (cond : Prop) [inst : Decidable cond]
    (ea eb es corr : ℝ)
    (hea0 : 0 < ea) (hea1 : ea < 1) (heb0 : 0 < eb) (heb1 : eb < 1)
    (hes0 : 0 < es) (hes1 : es ≤ 1) (hcorr : 0 < corr) :
    0 < (if cond then
          1 - (1 - (1 - ea + (1 - eb) - 0.15 * (1 - ea) * (1 - eb))) * (1 - (1 - es))
        else 1 - ea + (1 - eb) - 0.15 * (1 - ea) * (1 - eb)) * corr := by
  have hg0 : 0 < 1 - ea + (1 - eb) - 0.15 * (1 - ea) * (1 - eb) := by nlinarith
  refine mul_pos ?_ hcorr
  split_ifs with hcond
  · rcases le_or_lt (1 - ea + (1 - eb) - 0.15 * (1 - ea) * (1 - eb)) 1 with hg | hg
    · nlinarith [mul_le_mul_of_nonneg_left hes1 (sub_nonneg.mpr hg)]
    · nlinarith [mul_pos hes0 (sub_pos.mpr hg)]
  · exact hg0

/-- Bounds of the flame emissivity for a positive flame temperature:
strictly positive, at most the 0.95 cap (shared helper for claim C8). -/
theorem flame_emissivity_bounds (temperature beam_length : ℝ) (fuel_type : String)
    (excess_air_ratio soot_concentration : ℝ)
    (hT : 0 < temperature) (hLb : 0 < beam_length)
    (hexcess : 1 ≤ excess_air_ratio) (hsoot : 0 ≤ soot_concentration) :
    0 < flame_emissivity temperature beam_length fuel_type excess_air_ratio
        soot_concentration ∧
      flame_emissivity temperature beam_length fuel_type excess_air_ratio
        soot_concentration ≤ 0.95 := by
  obtain ⟨hc, hh⟩ := flame_gas_fractions_pos fuel_type excess_air_ratio (by linarith)
  have hp1 : 0 < (flame_gas_fractions fuel_type excess_air_ratio).1 * 101325 / 101325 := by
    positivity
  have hp2 : 0 < (flame_gas_fractions fuel_type excess_air_ratio).2 * 101325 / 101325 := by
    positivity
  simp only [flame_emissivity]
  refine ⟨lt_min (by norm_num) ?_, min_le_left _ _⟩
  refine flame_total_times_corr_pos _ _ _ _ _ (Real.exp_pos _)
    (Real.exp_lt_one_iff.mpr (by nlinarith)) (Real.exp_pos _)
    (Real.exp_lt_one_iff.mpr (by nlinarith)) (Real.exp_pos _)
    (Real.exp_le_one_iff.mpr (by nlinarith))
    (Real.rpow_pos_of_pos (by positivity) 0.2)

/-- Claim C8 (amended with a positive flame temperature): every successful
calculate_flame_radiation call with flame temperature above the wall
temperature and above zero, positive chamber dimensions, excess-air ratio
at least one and nonnegative soot concentration returns a flame emissivity
strictly between 0 and 1, never above the 0.95 cap. -/
theorem flame_radiation_emissivity_in_bounds (cat : FuelCatalog) (wall_e : ℝ)
    (flame_temperature chamber_wall_temperature chamber_diameter chamber_length : ℝ)
    (fuel_type : String) (excess_air_ratio soot_concentration : ℝ)
    (horder : chamber_wall_temperature < flame_temperature)
    (hT : 0 < flame_temperature)
    (hd : 0 < chamber_diameter) (hl : 0 < chamber_length)
    (hexcess : 1 ≤ excess_air_ratio) (hsoot : 0 ≤ soot_concentration) :
    ∃ r : RadiationResults,
      calculate_flame_radiation cat wall_e flame_temperature chamber_wall_temperature
          chamber_diameter chamber_length fuel_type excess_air_ratio
          soot_concentration = .ok r ∧
      0 < r.flame_emissivity ∧ r.flame_emissivity ≤ 0.95 ∧ r.flame_emissivity < 1 := by
  unfold calculate_flame_radiation
  rw [if_neg (not_le.mpr horder), if_neg (by push_neg; exact ⟨hd, hl⟩)]
  refine ⟨_, rfl, ?_⟩
  obtain ⟨h0, h95⟩ := flame_emissivity_bounds flame_temperature
    (mean_beam_length chamber_diameter chamber_length) fuel_type excess_air_ratio
    soot_concentration hT (mean_beam_length_pos chamber_diameter chamber_length hd hl)
    hexcess hsoot
  exact ⟨h0, h95, lt_of_le_of_lt h95 (by norm_num)⟩

/-- Witness for claim C8 (amended form) at a concrete call: 1800 K flame,
1200 K wall, 0.5 m by 1.5 m chamber, natural gas, 20 percent excess air,
no soot. -/
theorem flame_radiation_emissivity_in_bounds_witness :
    ∃ r : RadiationResults,
      calculate_flame_radiation testCatalog 0.75 1800 1200 0.5 1.5 strNaturalGas
          1.2 0 = .ok r ∧
      0 < r.flame_emissivity ∧ r.flame_emissivity ≤ 0.95 ∧ r.flame_emissivity < 1 :=
  flame_radiation_emissivity_in_bounds testCatalog 0.75 1800 1200 0.5 1.5
    strNaturalGas 1.2 0 (by norm_num) (by norm_num) (by norm_num) (by norm_num)
    (by norm_num) (by norm_num)

/-- Counterexample to claim C8 as stated: a call with flame temperature
0 K and wall temperature -1 K passes every check the code makes (flame
above wall, positive dimensions, excess-air ratio one, zero soot), returns
successfully, and its flame emissivity is exactly 0 - not strictly between
0 and 1. -/
theorem flame_radiation_emissivity_zero_counterexample :
    ∃ r : RadiationResults,
      calculate_flame_radiation testCatalog 0.75 0 (-1) 1 1 strNaturalGas 1 0 =
        .ok r ∧
      r.flame_emissivity = 0 := by
  unfold calculate_flame_radiation
  rw [if_neg (by norm_num), if_neg (by norm_num)]
  refine ⟨_, rfl, ?_⟩
  show flame_emissivity 0 (mean_beam_length 1 1) strNaturalGas 1 0 = 0
  unfold flame_emissivity
  norm_num [Real.zero_rpow, min_eq_right]

/-! ## PressureLossCalculator (src/pressure_losses.py) -/

/-- Pipe segment record. -/
structure PipeSegment where
  length : ℝ
  diameter : ℝ
  roughness : ℝ
  material : String
  elevation_change : ℝ

/-- Pipe fitting record. -/
structure Fitting where
  type : String
  quantity : ℕ
  loss_coefficient : ℝ
  diameter : ℝ

/-- Results record of
PressureLossCalculator.calculate_system_pressure_losses. -/
structure PressureLossResults where
  total_pressure_loss : ℝ
  friction_losses : ℝ
  minor_losses : ℝ
  elevation_losses : ℝ
  burner_pressure_loss : ℝ
  required_supply_pressure : ℝ
  system_resistance_coefficient : ℝ
  reynolds_number : ℝ
  friction_factor : ℝ
  velocity_pressure : ℝ

/-- Error raised (ValueError) by the pressure-loss calculator. -/
inductive PressureError where
  | invalidFlowRate
  | invalidDensity
  | noSegments
deriving DecidableEq

/-- Material key of the pipe roughness table. -/
def strSteelNew : String := "steel_new"

/-- Material key of the pipe roughness table. -/
def strSteelUsed : String := "steel_used"

/-- Material key of the pipe roughness table. -/
def strGalvanized : String := "galvanized"

/-- Material key of the pipe roughness table. -/
def strCastIron : String := "cast_iron"

/-- Material key of the pipe roughness table. -/
def strCopper : String := "copper"

/-- Material key of the pipe roughness table. -/
def strPlastic : String := "plastic"

/-- Material key of the pipe roughness table. -/
def strStainless : String := "stainless_steel"

/-- PressureLossCalculator.get_pipe_roughness: PIPE_ROUGHNESS table lookup
with the used-steel default. -/
def get_pipe_roughness (material : String) : ℝ :=
  if material = strSteelNew then 0.000045
  else if material = strSteelUsed then 0.00015
  else if material = strGalvanized then 0.00015
  else if material = strCastIron then 0.00026
  else if material = strCopper then 0.0000015
  else if material = strPlastic then 0.0000015
  else if material = strStainless then 0.000045
  else 0.00015

/-- One fixed-point step of the Colebrook-White iteration. -/
def colebrook_step (reynolds relative_roughness f : ℝ) : ℝ :=
  (-2 * Real.logb 10 (relative_roughness / 3.7 + 2.51 / (reynolds * Real.sqrt f))) ^ (-2 : ℤ)

/-- The bounded Colebrook-White loop: up to the given number of steps,
stopping (and returning the previous iterate, as the source loop does)
once successive iterates differ by less than 1e-6. -/
def colebrook_iterate (reynolds relative_roughness : ℝ) : ℕ → ℝ → ℝ
  | 0, f => f
  | n + 1, f =>
    let f_new := colebrook_step reynolds relative_roughness f
    if |f_new - f| < 1e-6 then f
    else colebrook_iterate reynolds relative_roughness n f_new

/-- PressureLossCalculator._colebrook_white: at most 10 iterations from the
Blasius seed. -/
def colebrook_white (reynolds relative_roughness : ℝ) : ℝ :=
  colebrook_iterate reynolds relative_roughness 10 (0.316 * Real.rpow reynolds (-0.25))

/-- PressureLossCalculator._calculate_friction_factor: laminar below
Re 2300, linear interpolation on [2300, 4000), Colebrook-White above. -/
def calculate_friction_factor (reynolds roughness diameter : ℝ) : ℝ :=
  let relative_roughness := roughness / diameter
  if reynolds < 2300 then 64 / reynolds
  else if reynolds < 4000 then
    let f_laminar := (64 : ℝ) / 2300
    let f_turbulent := colebrook_white 4000 relative_roughness
    f_laminar + (f_turbulent - f_laminar) * (reynolds - 2300) / (4000 - 2300)
  else colebrook_white reynolds relative_roughness

/-- PressureLossCalculator._calculate_pipe_friction_loss: returns
(friction loss, Reynolds number, friction factor, velocity pressure). -/
def pipe_friction_loss (segment : PipeSegment)
    (mass_flow_rate gas_density gas_viscosity : ℝ) : ℝ × ℝ × ℝ × ℝ :=
  let area := Real.pi * segment.diameter ^ 2 / 4
  let velocity := mass_flow_rate / (gas_density * area)
  let reynolds := gas_density * velocity * segment.diameter / gas_viscosity
  let friction_factor := calculate_friction_factor reynolds segment.roughness segment.diameter
  let velocity_pressure := 0.5 * gas_density * velocity ^ 2
  (friction_factor * (segment.length / segment.diameter) * velocity_pressure,
    reynolds, friction_factor, velocity_pressure)

/-- PressureLossCalculator._calculate_fitting_loss: K-factor method scaled
by the fitting quantity. -/
def fitting_loss (fitting : Fitting) (mass_flow_rate gas_density : ℝ) : ℝ :=
  let area := Real.pi * fitting.diameter ^ 2 / 4
  let velocity := mass_flow_rate / (gas_density * area)
  let velocity_pressure := 0.5 * gas_density * velocity ^ 2
  fitting.loss_coefficient * velocity_pressure * (fitting.quantity : ℝ)

/-- PressureLossCalculator._calculate_elevation_losses: hydrostatic column
over the summed signed elevation changes. -/
def elevation_losses (pipe_segments : List PipeSegment) (gas_density : ℝ) : ℝ :=
  gas_density * 9.81 * pipe_segments.foldl (fun acc s => acc + s.elevation_change) 0

/-- Largest diameter among the segments (the Python max over the nonempty
segment list). -/
def max_segment_diameter (segs : List PipeSegment) : ℝ :=
  match segs.map PipeSegment.diameter with
  | [] => 0
  | d :: ds => ds.foldl max d

/-- PressureLossCalculator.calculate_system_pressure_losses: validates the
inputs, folds friction losses over the segments while keeping the Reynolds
number, friction factor and velocity pressure of the largest-diameter
(main) pipe, sums fitting and elevation losses, adds the optional burner
pressure drop, and applies the safety factor. -/
def calculate_system_pressure_losses (safety_factor : ℝ)
    (pipe_segments : List PipeSegment) (fittings : List Fitting)
    (mass_flow_rate gas_density gas_viscosity : ℝ)
    (burner_results : Option BurnerDesignResults) :
    Except PressureError PressureLossResults :=
  if mass_flow_rate ≤ 0 then .error .invalidFlowRate
  else if gas_density ≤ 0 then .error .invalidDensity
  else if pipe_segments = [] then .error .noSegments
  else
    let maxd := max_segment_diameter pipe_segments
    let acc := pipe_segments.foldl
      (fun (acc : ℝ × ℝ × ℝ × ℝ) segment =>
        let res := pipe_friction_loss segment mass_flow_rate gas_density gas_viscosity
        if segment.diameter ≥ maxd then
          (acc.1 + res.1, res.2.1, res.2.2.1, res.2.2.2)
        else (acc.1 + res.1, acc.2.1, acc.2.2.1, acc.2.2.2))
      (0, 0, 0, 0)
    let total_minor_loss :=
      fittings.foldl (fun m f => m + fitting_loss f mass_flow_rate gas_density) 0
    let total_elevation_loss := elevation_losses pipe_segments gas_density
    let burner_pressure_loss :=
      match burner_results with
      | some b => b.burner_pressure_drop
      | none => 0
    let total := acc.1 + total_minor_loss + total_elevation_loss + burner_pressure_loss
    let system_k := if acc.2.2.2 > 0 then total / acc.2.2.2 else 0
    .ok
      { total_pressure_loss := total
        friction_losses := acc.1
        minor_losses := total_minor_loss
        elevation_losses := total_elevation_loss
        burner_pressure_loss := burner_pressure_loss
        required_supply_pressure := total * safety_factor
        system_resistance_coefficient := system_k
        reynolds_number := acc.2.1
        friction_factor := acc.2.2.1
        velocity_pressure := acc.2.2.2 }

/-- The diameter grid of optimize_pipe_diameter: 25 mm to 495 mm in 5 mm
steps, converted to metres. -/
def optimize_diameters : List ℝ :=
  (List.range' 25 95 5).map (fun n => (n : ℝ) / 1000)

/-- Gas velocity at a candidate diameter inside optimize_pipe_diameter. -/
def optimize_velocity (mass_flow_rate gas_density diameter : ℝ) : ℝ :=
  mass_flow_rate / (gas_density * (Real.pi * diameter ^ 2 / 4))

/-- Pressure loss of the temporary segment built by optimize_pipe_diameter
for a candidate diameter (viscosity fixed at 1.5e-5, no elevation). -/
def optimize_segment_loss (length roughness : ℝ) (material : String)
    (mass_flow_rate gas_density diameter : ℝ) : ℝ :=
  (pipe_friction_loss
    { length := length, diameter := diameter, roughness := roughness,
      material := material, elevation_change := 0 }
    mass_flow_rate gas_density 1.5e-5).1

/-- Qualification test of the optimizer scan: the candidate diameter is not
skipped for velocity and its pressure loss stays within the limit. -/
def optimize_qualifies (vel ploss : ℝ → ℝ) (max_velocity max_pressure_loss d : ℝ) : Prop :=
  ¬ vel d > max_velocity ∧ ploss d ≤ max_pressure_loss

/-- The optimizer scan loop: walks the candidate list keeping the best
(smallest) qualifying diameter seen so far, exactly as the source loop
updates best_diameter. -/
def optimize_scan (vel ploss : ℝ → ℝ) (max_velocity max_pressure_loss : ℝ) :
    List ℝ → Option ℝ → Option ℝ
  | [], best => best
  | d :: ds, best =>
    if vel d > max_velocity then
      optimize_scan vel ploss max_velocity max_pressure_loss ds best
    else if ploss d ≤ max_pressure_loss then
      match best with
      | none => optimize_scan vel ploss max_velocity max_pressure_loss ds (some d)
      | some b =>
        if d < b then optimize_scan vel ploss max_velocity max_pressure_loss ds (some d)
        else optimize_scan vel ploss max_velocity max_pressure_loss ds best
    else optimize_scan vel ploss max_velocity max_pressure_loss ds best

/-- Outcome of optimize_pipe_diameter: ok mirrors the success dictionary;
failure mirrors the fallback dictionary, which carries the largest grid
diameter, its velocity, an infinite pressure loss, zeroed flow figures and
the warning entry that marks it as a failure indicator. -/
inductive PipeOptimization where
  | ok (diameter velocity pressure_loss reynolds_number friction_factor : ℝ)
  | failure (diameter velocity : ℝ)

/-- PressureLossCalculator.optimize_pipe_diameter: brute-force scan of the
diameter grid for the smallest diameter meeting both the velocity and the
pressure-loss constraints, or the explicit failure dictionary. -/
def optimize_pipe_diameter (length mass_flow_rate gas_density max_pressure_loss : ℝ)
    (material : String) (max_velocity : ℝ) : PipeOptimization :=
  let roughness := get_pipe_roughness material
  match optimize_scan (optimize_velocity mass_flow_rate gas_density)
      (optimize_segment_loss length roughness material mass_flow_rate gas_density)
      max_velocity max_pressure_loss optimize_diameters none with
  | some d =>
    let res := pipe_friction_loss
      { length := length, diameter := d, roughness := roughness,
        material := material, elevation_change := 0 }
      mass_flow_rate gas_density 1.5e-5
    .ok d (optimize_velocity mass_flow_rate gas_density d) res.1 res.2.1 res.2.2.1
  | none =>
    .failure (495 / 1000) (optimize_velocity mass_flow_rate gas_density (495 / 1000))

/-- When the scan returns a diameter it is a qualifying list element (or
the starting best), it is a lower bound of all qualifying list elements,
and it is at most the starting best. -/
theorem optimize_scan_some (vel ploss : ℝ → ℝ) (maxv maxp : ℝ) :
    ∀ (ds : List ℝ) (best : Option ℝ) (m : ℝ),
      optimize_scan vel ploss maxv maxp ds best = some m →
      ((m ∈ ds ∧ optimize_qualifies vel ploss maxv maxp m) ∨ best = some m) ∧
      (∀ d ∈ ds, optimize_qualifies vel ploss maxv maxp d → m ≤ d) ∧
      (∀ b, best = some b → m ≤ b) := by
  intro ds
  induction ds with
  | nil =>
    intro best m h
    simp only [optimize_scan] at h
    refine ⟨Or.inr h, by intro d hd; simp at hd, ?_⟩
    intro b hb
    rw [h] at hb
    injection hb with hb
    exact le_of_eq hb
  | cons d ds ih =>
    intro best m h
    simp only [optimize_scan] at h
    split_ifs at h with h1 h2
    · obtain ⟨hA, hB, hC⟩ := ih best m h
      refine ⟨?_, ?_, hC⟩
      · rcases hA with ⟨hm, hq⟩ | hA
        · exact Or.inl ⟨List.mem_cons_of_mem d hm, hq⟩
        · exact Or.inr hA
      · intro e he hq
        rcases List.mem_cons.mp he with rfl | he
        · exact absurd h1 hq.1
        · exact hB e he hq
    · rcases hbest : best with _ | b
      · subst hbest
        obtain ⟨hA, hB, hC⟩ := ih (some d) m h
        have hmd : m ≤ d := hC d rfl
        refine ⟨?_, ?_, ?_⟩
        · rcases hA with ⟨hm, hq⟩ | hA
          · exact Or.inl ⟨List.mem_cons_of_mem d hm, hq⟩
          · injection hA with hA
            subst hA
            exact Or.inl ⟨List.mem_cons_self d ds, ⟨h1, h2⟩⟩
        · intro e he hq
          rcases List.mem_cons.mp he with rfl | he
          · exact hmd
          · exact hB e he hq
        · intro b hb
          exact absurd hb (by simp)
      · subst hbest
        have h4 : (if d < b then optimize_scan vel ploss maxv maxp ds (some d)
            else optimize_scan vel ploss maxv maxp ds (some b)) = some m := h
        split_ifs at h4 with h3
        · obtain ⟨hA, hB, hC⟩ := ih (some d) m h4
          have hmd : m ≤ d := hC d rfl
          refine ⟨?_, ?_, ?_⟩
          · rcases hA with ⟨hm, hq⟩ | hA
            · exact Or.inl ⟨List.mem_cons_of_mem d hm, hq⟩
            · injection hA with hA
              subst hA
              exact Or.inl ⟨List.mem_cons_self d ds, ⟨h1, h2⟩⟩
          · intro e he hq
            rcases List.mem_cons.mp he with rfl | he
            · exact hmd
            · exact hB e he hq
          · intro b2 hb2
            injection hb2 with hb2
            subst hb2
            exact hmd.trans h3.le
        · obtain ⟨hA, hB, hC⟩ := ih (some b) m h4
          have hmb : m ≤ b := hC b rfl
          refine ⟨?_, ?_, ?_⟩
          · rcases hA with ⟨hm, hq⟩ | hA
            · exact Or.inl ⟨List.mem_cons_of_mem d hm, hq⟩
            · exact Or.inr hA
          · intro e he hq
            rcases List.mem_cons.mp he with rfl | he
            · exact hmb.trans (not_lt.mp h3)
            · exact hB e he hq
          · intro b2 hb2
            injection hb2 with hb2
            subst hb2
            exact hmb
    · obtain ⟨hA, hB, hC⟩ := ih best m h
      refine ⟨?_, ?_, hC⟩
      · rcases hA with ⟨hm, hq⟩ | hA
        · exact Or.inl ⟨List.mem_cons_of_mem d hm, hq⟩
        · exact Or.inr hA
      · intro e he hq
        rcases List.mem_cons.mp he with rfl | he
        · exact absurd hq.2 h2
        · exact hB e he hq

/-- Once the scan holds a best candidate it never returns none. -/
theorem optimize_scan_some_ne_none (vel ploss : ℝ → ℝ) (maxv maxp : ℝ) :
    ∀ (ds : List ℝ) (b : ℝ),
      optimize_scan vel ploss maxv maxp ds (some b) ≠ none := by
  intro ds
  induction ds with
  | nil => intro b h; simp [optimize_scan] at h
  | cons d ds ih =>
    intro b h
    simp only [optimize_scan] at h
    have h4 : (if vel d > maxv then optimize_scan vel ploss maxv maxp ds (some b)
        else if ploss d ≤ maxp then
          (if d < b then optimize_scan vel ploss maxv maxp ds (some d)
           else optimize_scan vel ploss maxv maxp ds (some b))
        else optimize_scan vel ploss maxv maxp ds (some b)) = none := h
    split_ifs at h4
    · exact ih b h4
    · exact ih d h4
    · exact ih b h4
    · exact ih b h4

/-- When the scan started empty-handed and ends empty-handed, nothing in
the list qualifies. -/
theorem optimize_scan_none (vel ploss : ℝ → ℝ) (maxv maxp : ℝ) :
    ∀ ds : List ℝ, optimize_scan vel ploss maxv maxp ds none = none →
      ∀ d ∈ ds, ¬ optimize_qualifies vel ploss maxv maxp d := by
  intro ds
  induction ds with
  | nil => intro _ d hd; simp at hd
  | cons d ds ih =>
    intro h e he
    simp only [optimize_scan] at h
    split_ifs at h with h1 h2
    · rcases List.mem_cons.mp he with rfl | he
      · exact fun hq => hq.1 h1
      · exact ih h e he
    · exact absurd h (optimize_scan_some_ne_none vel ploss maxv maxp ds d)
    · rcases List.mem_cons.mp he with rfl | he
      · exact fun hq => h2 hq.2
      · exact ih h e he

/-- When nothing in the list qualifies the scan returns its starting
best unchanged. -/
theorem optimize_scan_no_qual (vel ploss : ℝ → ℝ) (maxv maxp : ℝ) :
    ∀ (ds : List ℝ) (best : Option ℝ),
      (∀ d ∈ ds, ¬ optimize_qualifies vel ploss maxv maxp d) →
      optimize_scan vel ploss maxv maxp ds best = best := by
  intro ds
  induction ds with
  | nil => intro best _; simp only [optimize_scan]
  | cons d ds ih =>
    intro best hno
    simp only [optimize_scan]
    split_ifs with h1 h2
    · exact ih best fun e he => hno e (List.mem_cons_of_mem d he)
    · exact absurd ⟨h1, h2⟩ (hno d (List.mem_cons_self d ds))
    · exact ih best fun e he => hno e (List.mem_cons_of_mem d he)

/-- Claim C2: optimize_pipe_diameter never returns a success whose velocity
exceeds max_velocity or whose computed pressure loss exceeds
max_pressure_loss; a returned success diameter is the smallest qualifying
grid diameter; when no grid diameter qualifies the explicit failure
indicator is returned; and when some grid diameter qualifies a success is
returned. -/
theorem optimize_pipe_diameter_correct
    (length mass_flow_rate gas_density max_pressure_loss : ℝ)
    (material : String) (max_velocity : ℝ)
    (hlen : 0 < length) (hflow : 0 < mass_flow_rate) (hdens : 0 < gas_density) :
    (∀ d v pl re ff,
      optimize_pipe_diameter length mass_flow_rate gas_density max_pressure_loss
          material max_velocity = .ok d v pl re ff →
        d ∈ optimize_diameters ∧
        v = optimize_velocity mass_flow_rate gas_density d ∧
        pl = optimize_segment_loss length (get_pipe_roughness material) material
          mass_flow_rate gas_density d ∧
        v ≤ max_velocity ∧ pl ≤ max_pressure_loss ∧
        (∀ e ∈ optimize_diameters,
          optimize_qualifies (optimize_velocity mass_flow_rate gas_density)
            (optimize_segment_loss length (get_pipe_roughness material) material
              mass_flow_rate gas_density) max_velocity max_pressure_loss e →
          d ≤ e)) ∧
    ((∀ e ∈ optimize_diameters,
        ¬ optimize_qualifies (optimize_velocity mass_flow_rate gas_density)
          (optimize_segment_loss length (get_pipe_roughness material) material
            mass_flow_rate gas_density) max_velocity max_pressure_loss e) →
      optimize_pipe_diameter length mass_flow_rate gas_density max_pressure_loss
          material max_velocity =
        .failure (495 / 1000)
          (optimize_velocity mass_flow_rate gas_density (495 / 1000))) ∧
    ((∃ e ∈ optimize_diameters,
        optimize_qualifies (optimize_velocity mass_flow_rate gas_density)
          (optimize_segment_loss length (get_pipe_roughness material) material
            mass_flow_rate gas_density) max_velocity max_pressure_loss e) →
      ∃ d v pl re ff,
        optimize_pipe_diameter length mass_flow_rate gas_density max_pressure_loss
            material max_velocity = .ok d v pl re ff) := by
  refine ⟨?_, ?_, ?_⟩
  · intro d v pl re ff h
    simp only [optimize_pipe_diameter] at h
    rcases hscan : optimize_scan (optimize_velocity mass_flow_rate gas_density)
        (optimize_segment_loss length (get_pipe_roughness material) material
          mass_flow_rate gas_density)
        max_velocity max_pressure_loss optimize_diameters none with _ | m
    · rw [hscan] at h
      exact absurd h (by simp)
    · rw [hscan] at h
      simp only [PipeOptimization.ok.injEq] at h
      obtain ⟨rfl, rfl, rfl, rfl, rfl⟩ := h
      obtain ⟨hA, hB, -⟩ := optimize_scan_some _ _ _ _ _ _ _ hscan
      rcases hA with ⟨hm, hq⟩ | hA
      · exact ⟨hm, rfl, rfl, not_lt.mp hq.1, hq.2, hB⟩
      · exact absurd hA (by simp)
  · intro hno
    simp only [optimize_pipe_diameter]
    rw [optimize_scan_no_qual _ _ _ _ _ _ hno]
  · intro ⟨e, he, hq⟩
    rcases hscan : optimize_scan (optimize_velocity mass_flow_rate gas_density)
        (optimize_segment_loss length (get_pipe_roughness material) material
          mass_flow_rate gas_density)
        max_velocity max_pressure_loss optimize_diameters none with _ | m
    · exact absurd hq (optimize_scan_none _ _ _ _ _ hscan e he)
    · refine ⟨m, optimize_velocity mass_flow_rate gas_density m,
        (pipe_friction_loss
          { length := length, diameter := m, roughness := get_pipe_roughness material,
            material := material, elevation_change := 0 }
          mass_flow_rate gas_density 1.5e-5).1,
        (pipe_friction_loss
          { length := length, diameter := m, roughness := get_pipe_roughness material,
            material := material, elevation_change := 0 }
          mass_flow_rate gas_density 1.5e-5).2.1,
        (pipe_friction_loss
          { length := length, diameter := m, roughness := get_pipe_roughness material,
            material := material, elevation_change := 0 }
          mass_flow_rate gas_density 1.5e-5).2.2.1, ?_⟩
      simp only [optimize_pipe_diameter]
      rw [hscan]

/-- Witness for claim C2 at concrete inputs: a 1 m steel pipe, 1 kg/s of
gas at 1 kg/m3, 100 Pa allowed loss, 20 m/s velocity limit. -/
theorem optimize_pipe_diameter_correct_witness :
    (∀ d v pl re ff,
      optimize_pipe_diameter 1 1 1 100 strSteelNew 20 = .ok d v pl re ff →
        d ∈ optimize_diameters ∧
        v = optimize_velocity 1 1 d ∧
        pl = optimize_segment_loss 1 (get_pipe_roughness strSteelNew) strSteelNew 1 1 d ∧
        v ≤ 20 ∧ pl ≤ 100 ∧
        (∀ e ∈ optimize_diameters,
          optimize_qualifies (optimize_velocity 1 1)
            (optimize_segment_loss 1 (get_pipe_roughness strSteelNew) strSteelNew 1 1)
            20 100 e → d ≤ e)) ∧
    ((∀ e ∈ optimize_diameters,
        ¬ optimize_qualifies (optimize_velocity 1 1)
          (optimize_segment_loss 1 (get_pipe_roughness strSteelNew) strSteelNew 1 1)
          20 100 e) →
      optimize_pipe_diameter 1 1 1 100 strSteelNew 20 =
        .failure (495 / 1000) (optimize_velocity 1 1 (495 / 1000))) ∧
    ((∃ e ∈ optimize_diameters,
        optimize_qualifies (optimize_velocity 1 1)
          (optimize_segment_loss 1 (get_pipe_roughness strSteelNew) strSteelNew 1 1)
          20 100 e) →
      ∃ d v pl re ff, optimize_pipe_diameter 1 1 1 100 strSteelNew 20 = .ok d v pl re ff) :=
  optimize_pipe_diameter_correct 1 1 1 100 strSteelNew 20 (by norm_num) (by norm_num)
    (by norm_num)

/-- A linear interpolation with parameter in [0, 1] stays between its two
endpoint values. -/
theorem interp_between (a b t : ℝ) (h0 : 0 ≤ t) (h1 : t ≤ 1) :
    min a b ≤ a + (b - a) * t ∧ a + (b - a) * t ≤ max a b := by
  rcases le_total a b with hab | hab
  · rw [min_eq_left hab, max_eq_right hab]
    constructor <;> nlinarith
  · rw [min_eq_right hab, max_eq_left hab]
    constructor <;> nlinarith

/-- Claim C6: for every Reynolds number in [2300, 4000] and fixed relative
roughness, the friction factor of _calculate_friction_factor lies between
the laminar value at Re 2300 (64/2300) and the turbulent Colebrook-White
value computed at Re 4000 for that roughness. -/
theorem friction_factor_transition_between (roughness diameter reynolds : ℝ)
    (hlo : 2300 ≤ reynolds) (hhi : reynolds ≤ 4000) :
    min ((64 : ℝ) / 2300) (colebrook_white 4000 (roughness / diameter)) ≤
      calculate_friction_factor reynolds roughness diameter ∧
    calculate_friction_factor reynolds roughness diameter ≤
      max ((64 : ℝ) / 2300) (colebrook_white 4000 (roughness / diameter)) := by
  simp only [calculate_friction_factor]
  rw [if_neg (not_lt.mpr hlo)]
  rcases lt_or_le reynolds 4000 with h4 | h4
  · rw [if_pos h4]
    have ht0 : 0 ≤ (reynolds - 2300) / (4000 - 2300) :=
      div_nonneg (by linarith) (by norm_num)
    have ht1 : (reynolds - 2300) / (4000 - 2300) ≤ 1 := by
      rw [div_le_one (by norm_num)]
      linarith
    obtain ⟨g1, g2⟩ := interp_between ((64 : ℝ) / 2300)
      (colebrook_white 4000 (roughness / diameter))
      ((reynolds - 2300) / (4000 - 2300)) ht0 ht1
    rw [← mul_div_assoc] at g1 g2
    exact ⟨g1, g2⟩
  · rw [if_neg (not_lt.mpr h4)]
    have h40 : reynolds = 4000 := le_antisymm hhi h4
    rw [h40]
    exact ⟨min_le_right _ _, le_max_right _ _⟩

/-- Witness for claim C6 at Re 3000, roughness 0.00015 m, diameter
0.05 m. -/
theorem friction_factor_transition_between_witness :
    min ((64 : ℝ) / 2300) (colebrook_white 4000 (0.00015 / 0.05)) ≤
      calculate_friction_factor 3000 0.00015 0.05 ∧
    calculate_friction_factor 3000 0.00015 0.05 ≤
      max ((64 : ℝ) / 2300) (colebrook_white 4000 (0.00015 / 0.05)) :=
  friction_factor_transition_between 0.00015 0.05 3000 (by norm_num) (by norm_num)

/-- The friction loss of a segment with positive length and diameter in the
laminar regime is strictly positive (helper for the claim C5
counterexample). -/
theorem pipe_friction_loss_pos (segment : PipeSegment) (mass_flow_rate gas_density
    gas_viscosity : ℝ) (hm : 0 < mass_flow_rate) (hr : 0 < gas_density)
    (hmu : 0 < gas_viscosity) (hd : 0 < segment.diameter) (hL : 0 < segment.length)
    (hre : gas_density * (mass_flow_rate /
        (gas_density * (Real.pi * segment.diameter ^ 2 / 4))) *
      segment.diameter / gas_viscosity < 2300) :
    0 < (pipe_friction_loss segment mass_flow_rate gas_density gas_viscosity).1 := by
  simp only [pipe_friction_loss, calculate_friction_factor]
  rw [if_pos hre]
  have hpi := Real.pi_pos
  positivity

/-- The single pipe segment of the claim C5 scenario as a concrete record
(10 m of new steel, 50 mm bore, 3 m elevation rise). -/
def c5_segment : PipeSegment :=
  { length := 10, diameter := 0.05, roughness := 0.000045,
    material := strSteelNew, elevation_change := 3 }

/-- Counterexample to claim C5 as stated: a call with exactly one pipe
segment (elevation change 3 m), gas density 0.8 kg/m3, no fittings and no
burner result, whose returned friction losses are strictly positive - not
zero as the claim asserts - while the elevation losses do equal
0.8 x 9.81 x 3 and the minor losses are zero. -/
theorem system_losses_friction_positive_counterexample :
    ∃ r : PressureLossResults,
      calculate_system_pressure_losses 1.3 [c5_segment] [] 0.0005 0.8 1.5e-5 none =
        .ok r ∧
      r.elevation_losses = 0.8 * 9.81 * 3 ∧ r.minor_losses = 0 ∧
      0 < r.friction_losses := by
  simp only [calculate_system_pressure_losses]
  rw [if_neg (by norm_num), if_neg (by norm_num), if_neg (by simp)]
  refine ⟨_, rfl, ?_, rfl, ?_⟩
  · show elevation_losses [c5_segment] 0.8 = 0.8 * 9.81 * 3
    norm_num [elevation_losses, c5_segment]
  · show 0 < (List.foldl _ (0, 0, 0, 0) [c5_segment]).1
    simp only [List.foldl_cons, List.foldl_nil]
    rw [if_pos (by norm_num [c5_segment, max_segment_diameter])]
    have hfl : 0 < (pipe_friction_loss c5_segment 0.0005 0.8 1.5e-5).1 := by
      have hpi3 : (3 : ℝ) < Real.pi := Real.pi_gt_three
      refine pipe_friction_loss_pos c5_segment 0.0005 0.8 1.5e-5 (by norm_num)
        (by norm_num) (by norm_num) (by norm_num [c5_segment])
        (by norm_num [c5_segment]) ?_
      have heq : (0.8 : ℝ) * (0.0005 /
          (0.8 * (Real.pi * c5_segment.diameter ^ 2 / 4))) *
          c5_segment.diameter / 1.5e-5 = 8000 / (3 * Real.pi) := by
        simp only [c5_segment]
        have hpine : Real.pi ≠ 0 := Real.pi_ne_zero
        field_simp
        ring
      rw [heq, div_lt_iff (by positivity)]
      nlinarith
    simp only [Prod.fst]
    linarith [hfl]

/-- Claim C5 (amended to a zero-length segment, which is what forces the
asserted zero friction loss): a call with exactly one zero-length pipe
segment with elevation change 3 m, gas density 0.8 kg/m3, no fittings and
no burner result returns elevation losses of exactly 0.8 x 9.81 x 3 =
23.544 Pa (within 0.01 Pa of 23.54 Pa) and zero friction and minor
losses. -/
theorem system_losses_isolated_elevation (safety_factor diameter roughness : ℝ)
    (material : String) (mass_flow_rate gas_viscosity : ℝ)
    (hflow : 0 < mass_flow_rate) :
    ∃ r : PressureLossResults,
      calculate_system_pressure_losses safety_factor
        [{ length := 0, diameter := diameter, roughness := roughness,
           material := material, elevation_change := 3 }] []
        mass_flow_rate 0.8 gas_viscosity none = .ok r ∧
      r.elevation_losses = 0.8 * 9.81 * 3 ∧
      |r.elevation_losses - 23.54| ≤ 0.01 ∧
      r.friction_losses = 0 ∧ r.minor_losses = 0 := by
  simp only [calculate_system_pressure_losses]
  rw [if_neg (not_le.mpr hflow), if_neg (by norm_num), if_neg (by simp)]
  refine ⟨_, rfl, ?_, ?_, ?_, rfl⟩
  · show elevation_losses _ 0.8 = 0.8 * 9.81 * 3
    norm_num [elevation_losses]
  · show |elevation_losses _ 0.8 - 23.54| ≤ 0.01
    rw [show elevation_losses
        [{ length := 0, diameter := diameter, roughness := roughness,
           material := material, elevation_change := 3 }] 0.8 = 23.544 from by
      norm_num [elevation_losses]]
    rw [abs_le]
    norm_num
  · show (List.foldl _ (0, 0, 0, 0) _).1 = 0
    simp only [List.foldl_cons, List.foldl_nil]
    rw [if_pos (by norm_num [max_segment_diameter])]
    simp [pipe_friction_loss]

/-- Witness for claim C5 (amended form) at concrete inputs: 50 mm new
steel segment, 0.002 kg/s flow. -/
theorem system_losses_isolated_elevation_witness :
    ∃ r : PressureLossResults,
      calculate_system_pressure_losses 1.3
        [{ length := 0, diameter := 0.05, roughness := 0.000045,
           material := strSteelNew, elevation_change := 3 }] []
        0.002 0.8 1.5e-5 none = .ok r ∧
      r.elevation_losses = 0.8 * 9.81 * 3 ∧
      |r.elevation_losses - 23.54| ≤ 0.01 ∧
      r.friction_losses = 0 ∧ r.minor_losses = 0 :=
  system_losses_isolated_elevation 1.3 0.05 0.000045 strSteelNew 0.002 1.5e-5
    (by norm_num)

end
